import Mathlib

/-!
Shallow embedding of the pydanticai-pycon-2025 repository's core:
the request queue store and its two-field update path
(src/openai_agent.py, src/ollama_agent.py, src/init_db.py), the
credit-application repository and evaluation CLI
(src/multi_agent/process_applications.py), and the coordinator
tool-delegation loop.  Python exceptions are embedded as `Except`,
nullable database columns as `Option`, and the opaque LLM capability
as an explicit function parameter.  SQLite REAL columns (income,
expenses) are carried opaquely as `Int`: no claim depends on float
arithmetic, only on which fields are read and written.
-/

namespace Pycon2025

/-! ## Queue store (src/init_db.py `requests` table) -/

/-- One row of the `requests` table created by src/init_db.py:
`id INTEGER PRIMARY KEY`, `request_body TEXT NOT NULL`, nullable
`summary`, `response`, `processed_at`, and `created_at TIMESTAMP`. -/
structure RequestRow where
  id : Nat
  request_body : String
  summary : Option String
  response : Option String
  processed_at : Option String
  created_at : String
  deriving DecidableEq, Repr

/-- Insertion step for `ORDER BY created_at ASC`. -/
def insertByCreatedAt (r : RequestRow) : List RequestRow → List RequestRow
  | [] => [r]
  | x :: xs =>
    if r.created_at ≤ x.created_at then r :: x :: xs
    else x :: insertByCreatedAt r xs

/-- `ORDER BY created_at ASC` over a list of rows (insertion sort). -/
def orderByCreatedAt : List RequestRow → List RequestRow
  | [] => []
  | x :: xs => insertByCreatedAt x (orderByCreatedAt xs)

/-- src/openai_agent.py `get_unprocessed_requests`:
`SELECT * FROM requests WHERE response IS NULL ORDER BY created_at ASC`. -/
def get_unprocessed_requests (db : List RequestRow) : List RequestRow :=
  orderByCreatedAt (db.filter (fun r => r.response.isNone))

/-- src/openai_agent.py `update_request`:
`UPDATE requests SET summary = ?, response = ?, processed_at = ? WHERE id = ?`.
`processed_at` (`datetime.datetime.now()` in the source) is passed in
explicitly; SQLite applies the SET clause to every row matching the
WHERE clause and touches no other row. -/
def update_request (db : List RequestRow) (request_id : Nat)
    (summary response_text processed_at : String) : List RequestRow :=
  db.map (fun r =>
    if r.id = request_id then
      { r with
        summary := some summary
        response := some response_text
        processed_at := some processed_at }
    else r)

/-! ## Application repository (src/multi_agent/process_applications.py) -/

/-- One row of the `applications` table, in `SELECT *` column order
`(id, full_name, date_of_birth, address, ssn, income, expenses,
credit_score)`. -/
structure ApplicationRow where
  id : Int
  full_name : String
  date_of_birth : String
  address : String
  ssn : String
  income : Int
  expenses : Int
  credit_score : Int
  deriving DecidableEq, Repr

/-- The `CreditApplication` pydantic model of
src/multi_agent/process_applications.py. -/
structure CreditApplication where
  id : Int
  full_name : String
  date_of_birth : String
  address : String
  ssn : String
  income : Int
  expenses : Int
  credit_score : Int
  deriving DecidableEq, Repr

/-- The `CreditApplication(...)` construction from a fetched row in
`Database.get_application_by_id`. -/
def rowToCreditApplication (row : ApplicationRow) : CreditApplication :=
  { id := row.id
    full_name := row.full_name
    date_of_birth := row.date_of_birth
    address := row.address
    ssn := row.ssn
    income := row.income
    expenses := row.expenses
    credit_score := row.credit_score }

/-- src/multi_agent/process_applications.py
`Database.get_application_by_id`: `SELECT * FROM applications WHERE
id = ?` with `fetchone` (the first matching row); builds a
`CreditApplication` if a row was found, otherwise raises
`ValueError("Application not found")` (embedded as `Except.error`). -/
def get_application_by_id (db : List ApplicationRow) (app_id : Int) :
    Except String CreditApplication :=
  match db.find? (fun r => r.id == app_id) with
  | some row => .ok (rowToCreditApplication row)
  | none => .error "Application not found"

/-! ## Decision schema and evaluation CLI
(src/multi_agent/process_applications.py) -/

/-- The `Literal["Approved", "Denied"]` decision field. -/
inductive DecisionKind
  | Approved
  | Denied
  deriving DecidableEq, Repr

/-- Rendering of the decision literal as it appears in the panel. -/
def DecisionKind.text : DecisionKind → String
  | .Approved => "Approved"
  | .Denied => "Denied"

/-- The `FeasibilityResult` pydantic model: a decision literal plus a
free-text reason. -/
structure FeasibilityResult where
  decision : DecisionKind
  reason : String
  deriving DecidableEq, Repr

/-- The `AppContext` dataclass handed to the coordinator's tools as
`deps`. -/
structure AppContext where
  credit_application : CreditApplication
  deriving DecidableEq, Repr

/-! ### Serialization: pydantic `model_dump_json` -/

/-- JSON escaping of one character inside a string literal. -/
def jsonEscapeChar (c : Char) : List Char :=
  if c = '\\' then ['\\', '\\']
  else if c = '"' then ['\\', '"']
  else [c]

/-- JSON escaping of a whole string. -/
def jsonEscape (s : String) : String :=
  String.mk (s.toList.map jsonEscapeChar).flatten

/-- A JSON string literal. -/
def jsonStr (s : String) : String := "\"" ++ jsonEscape s ++ "\""

/-- pydantic `CreditApplication.model_dump_json()`: the compact JSON
object listing every field of the record in declaration order
(numeric fields rendered via their decimal notation). -/
def model_dump_json (app : CreditApplication) : String :=
  "\x7b" ++ jsonStr "id" ++ ":" ++ toString app.id ++ ","
    ++ jsonStr "full_name" ++ ":" ++ jsonStr app.full_name ++ ","
    ++ jsonStr "date_of_birth" ++ ":" ++ jsonStr app.date_of_birth ++ ","
    ++ jsonStr "address" ++ ":" ++ jsonStr app.address ++ ","
    ++ jsonStr "ssn" ++ ":" ++ jsonStr app.ssn ++ ","
    ++ jsonStr "income" ++ ":" ++ toString app.income ++ ","
    ++ jsonStr "expenses" ++ ":" ++ toString app.expenses ++ ","
    ++ jsonStr "credit_score" ++ ":" ++ toString app.credit_score
    ++ "\x7d"

/-! ### The three coordinator tools.  Each evaluator agent
(`data_validator`, `financial_evaluator`, `background_checker`) is an
opaque LLM binding with `output_type=bool`; it is embedded as an
explicit function from its payload text to its boolean verdict. -/

/-- Tool `validate_data`: runs `data_validator` on
`ctx.deps.credit_application.model_dump_json()` and returns its
boolean output. -/
def validate_data (data_validator : String → Bool) (ctx : AppContext) : Bool :=
  data_validator (model_dump_json ctx.credit_application)

/-- Tool `evaluate_financials`: runs `financial_evaluator` on
`ctx.deps.credit_application.model_dump_json()` and returns its
boolean output. -/
def evaluate_financials (financial_evaluator : String → Bool)
    (ctx : AppContext) : Bool :=
  financial_evaluator (model_dump_json ctx.credit_application)

/-- Tool `check_background`: runs `background_checker` on
`ctx.deps.credit_application.full_name` only, and returns its boolean
output. -/
def check_background (background_checker : String → Bool)
    (ctx : AppContext) : Bool :=
  background_checker ctx.credit_application.full_name

/-! ### `main` of src/multi_agent/process_applications.py -/

/-- Python truthiness of `args.app_id` (an optional int): `None` and
`0` are falsy, every other int is truthy. -/
def pyTruthyOptInt (o : Option Int) : Bool :=
  match o with
  | none => false
  | some n => n != 0

/-- The application-id selection in `main`: `if args.app_id:` keeps
the explicit id, otherwise `random.randint(1, 10)` is used (passed in
here as `randomValue`).  Returns the chosen id and the line printed. -/
def select_application_id (arg_app_id : Option Int) (randomValue : Int) :
    Int × String :=
  if pyTruthyOptInt arg_app_id then
    let n := arg_app_id.getD 0
    (n, "Using specified application ID: " ++ toString n)
  else
    (randomValue, "Randomly selected application ID: " ++ toString randomValue)

/-- `decision_color` in `main`. -/
def decision_color (r : FeasibilityResult) : String :=
  if r.decision = .Approved then "green" else "red"

/-- The `panel_content` string built in `main`. -/
def decisionPanel (r : FeasibilityResult) : String :=
  let c := decision_color r
  "[bold]Decision:[/] [" ++ c ++ "]" ++ r.decision.text ++ "[/" ++ c
    ++ "]\n[bold]Reason:[/] " ++ r.reason

/-- The body of `main` from the `try` block on: look the application
up; on success print the evaluation line and the decision panel
(coordinator output passed in as `coordinatorResult`), on
`ValueError` print the error line.  Both paths fall off the end of
`main`, so the process exit status is 0 either way; the second
component records that status. -/
def mainRun (db : List ApplicationRow) (application_id : Int)
    (coordinatorResult : FeasibilityResult) : List String × Nat :=
  match get_application_by_id db application_id with
  | .ok app =>
    (["Evaluating application for: [bold cyan]" ++ app.full_name ++ "[/]",
      decisionPanel coordinatorResult], 0)
  | .error e => (["[bold red]Error:[/] " ++ e], 0)

/-! ## Structured-generation call paths with fallback extraction
(src/ollama_agent.py, src/openai_agent.py)

A raised Python exception is embedded as `Except.error` carrying a
`PyError`: its `str(e)` message and, when present, the side-channel
`llm_output` attribute holding the raw model text.  The library calls
`pydantic_ai.utils.extract_json` and `AgentResponse(**raw_json)`
(pydantic validation) are opaque and may themselves raise, so they are
embedded as explicit `Except`-returning function parameters; the
theorems quantify over every behaviour of these parameters.
`extract_json` may return Python `None` or an empty dict, both falsy
under `if raw_json:`, hence its `Option` result plus the emptiness
test. -/

/-- A raised Python exception: `str(e)` plus the optional `llm_output`
attribute. -/
structure PyError where
  message : String
  llm_output : Option String
  deriving DecidableEq, Repr

/-- An extracted raw JSON dict, as key/value pairs. -/
abbrev JsonObj := List (String × String)

/-- The `AgentResponse` pydantic model of src/llm_schemas.py. -/
structure AgentResponse where
  summary : String
  response_text : String
  deriving DecidableEq, Repr

/-- `startsWithSeq pat l` : does `l` start with `pat`? -/
def startsWithSeq : List Char → List Char → Bool
  | [], _ => true
  | _ :: _, [] => false
  | p :: ps, c :: cs => p == c && startsWithSeq ps cs

/-- `containsSeq pat l` : does `pat` occur contiguously in `l`? -/
def containsSeq : List Char → List Char → Bool
  | pat, [] => startsWithSeq pat []
  | pat, c :: cs => startsWithSeq pat (c :: cs) || containsSeq pat cs

/-- Python's `pat in hay` on strings. -/
def strContains (hay pat : String) : Bool := containsSeq pat.toList hay.toList

/-- src/ollama_agent.py `call_ollama_with_pydantic_ai`: the `try`
runs the chain (`runChain`); on success the structured response is
returned.  The `except` prints, then branches: connection-refused and
model-not-found messages return `None`; otherwise, when the exception
carries `llm_output`, a nested `try` runs `extract_json` and, if the
result is truthy, pydantic validation `AgentResponse(**raw_json)`,
with every nested exception caught; all remaining paths fall through
to `return None`. -/
def call_ollama_with_pydantic_ai
    (runChain : Except PyError AgentResponse)
    (extract_json : String → Except PyError (Option JsonObj))
    (validateAgentResponse : JsonObj → Except PyError AgentResponse) :
    Option AgentResponse :=
  match runChain with
  | .ok v => some v
  | .error e =>
    if strContains e.message "Connection refused"
        || strContains e.message "Failed to establish a new connection" then
      none
    else if strContains e.message.toLower "model not found" then
      none
    else
      match e.llm_output with
      | some raw =>
        match extract_json raw with
        | .error _ => none
        | .ok none => none
        | .ok (some raw_json) =>
          if raw_json.isEmpty then none
          else
            match validateAgentResponse raw_json with
            | .ok v => some v
            | .error _ => none
      | none => none

/-- src/openai_agent.py `call_openai_with_pydantic_ai`: early-exits
with `None` when `OPENAI_API_KEY` is unset; otherwise runs the chain;
the `except` attempts the `extract_json` fallback exactly when the
exception has `llm_output`, under a nested `try` whose exceptions are
caught, and otherwise returns `None`.  The second component counts the
fallback-extraction attempts made (invocations of `extract_json`). -/
def call_openai_with_pydantic_ai
    (apiKeySet : Bool)
    (runChain : Except PyError AgentResponse)
    (extract_json : String → Except PyError (Option JsonObj))
    (validateAgentResponse : JsonObj → Except PyError AgentResponse) :
    Option AgentResponse × Nat :=
  if !apiKeySet then (none, 0)
  else
    match runChain with
    | .ok v => (some v, 0)
    | .error e =>
      match e.llm_output with
      | some raw =>
        match extract_json raw with
        | .error _ => (none, 1)
        | .ok none => (none, 1)
        | .ok (some raw_json) =>
          if raw_json.isEmpty then (none, 1)
          else
            match validateAgentResponse raw_json with
            | .ok v => (some v, 1)
            | .error _ => (none, 1)
      | none => (none, 0)

/-! ## Coordinator tool loop (src/multi_agent/process_applications.py
delegates the loop to the agent framework's `end_strategy="exhaustive"`;
the loop itself is not in the repository). -/

/-- The three tools declared on the coordinator. -/
inductive ToolName
  | validate_data
  | evaluate_financials
  | check_background
  deriving DecidableEq, Repr

/-- The coordinator's declared tool set. -/
def declaredTools : List ToolName :=
  [.validate_data, .evaluate_financials, .check_background]

/-- What the underlying generation capability chooses at one
iteration of the tool loop: invoke some tools, attempt the final
decision, or fail terminally. -/
inductive CoordChoice
  | callTools (ts : List ToolName)
  | finalize (r : FeasibilityResult)
  | genFail
  deriving DecidableEq, Repr

/-- Outcome of one evaluation run. -/
inductive CoordOutcome
  | finished (d : FeasibilityResult) (invoked : List ToolName)
  | failed
  deriving DecidableEq, Repr

/-- Every declared tool has been invoked at least once. -/
def allToolsInvoked (invoked : List ToolName) : Bool :=
  declaredTools.all (fun t => invoked.contains t)

/-- Modelled from the spec: the coordinator tool-calling loop with the
exhaustive policy (§4.4) and the iteration ceiling, which the source
delegates to the agent framework's undocumented
`end_strategy="exhaustive"` and which is therefore not code under the
repository.  `choices` is the opaque capability's decision at each
iteration; `remaining` counts iterations left under the ceiling;
`invoked` is the append-only record of tool invocations.  A decision
attempt is accepted (transition to Deciding, then Finished) only once
every declared tool has been invoked; otherwise the loop keeps
iterating.  Exhausting the ceiling, or a terminal generation failure,
ends the run in Failed. -/
def coordRun (choices : Nat → CoordChoice) :
    Nat → Nat → List ToolName → CoordOutcome
  | 0, _, _ => .failed
  | remaining + 1, iter, invoked =>
    match choices iter with
    | .genFail => .failed
    | .callTools ts => coordRun choices remaining (iter + 1) (invoked ++ ts)
    | .finalize r =>
      if allToolsInvoked invoked then .finished r invoked
      else coordRun choices remaining (iter + 1) invoked

/-- Modelled from the spec: whether the run exhausts the iteration
ceiling before ever reaching the Deciding state (same recursion
structure as `coordRun`, projected to that one question). -/
def coordCeilingExhausted (choices : Nat → CoordChoice) :
    Nat → Nat → List ToolName → Bool
  | 0, _, _ => true
  | remaining + 1, iter, invoked =>
    match choices iter with
    | .genFail => false
    | .callTools ts =>
      coordCeilingExhausted choices remaining (iter + 1) (invoked ++ ts)
    | .finalize _ =>
      if allToolsInvoked invoked then false
      else coordCeilingExhausted choices remaining (iter + 1) invoked

/-- One whole evaluation run: the loop started fresh with the
configured iteration ceiling. -/
def evaluateApplication (choices : Nat → CoordChoice) (ceiling : Nat) :
    CoordOutcome :=
  coordRun choices ceiling 0 []

/-! ## Theorems -/

/-- Membership through one insertion step of the `created_at` sort. -/
theorem mem_insertByCreatedAt (r x : RequestRow) (l : List RequestRow) :
    r ∈ insertByCreatedAt x l ↔ r = x ∨ r ∈ l := by
  induction l with
  | nil => simp [insertByCreatedAt]
  | cons y ys ih =>
    simp only [insertByCreatedAt]
    split
    · simp
    · simp only [List.mem_cons, ih]
      tauto

/-- `ORDER BY created_at` permutes rows: membership is preserved. -/
theorem mem_orderByCreatedAt (r : RequestRow) (l : List RequestRow) :
    r ∈ orderByCreatedAt l ↔ r ∈ l := by
  induction l with
  | nil => simp [orderByCreatedAt]
  | cons x xs ih => simp [orderByCreatedAt, mem_insertByCreatedAt, ih]

/-- Claim C6: `get_unprocessed_requests` returns exactly the rows
whose `response` column is NULL — every returned row has NULL
`response`, and every row of the database with NULL `response` is
returned — regardless of the `summary` and `processed_at` columns. -/
theorem get_unprocessed_requests_exactly_null_response
    (db : List RequestRow) (r : RequestRow) :
    r ∈ get_unprocessed_requests db ↔ r ∈ db ∧ r.response = none := by
  simp [get_unprocessed_requests, mem_orderByCreatedAt, List.mem_filter,
    Option.isNone_iff_eq_none]

/-- Claim C5: on a successful two-field generation cycle,
`update_request` sets the matching row's `summary`, `response` and
`processed_at` to non-null values, leaves its `id`, `request_body`
and `created_at` unchanged, leaves every row whose id differs
untouched, and neither deletes nor re-orders rows (the length and the
id sequence are preserved). -/
theorem update_request_frame (db : List RequestRow) (request_id : Nat)
    (s resp t : String) :
    (update_request db request_id s resp t).length = db.length ∧
    (update_request db request_id s resp t).map (fun r => r.id) =
      db.map (fun r => r.id) ∧
    ∀ (i : Nat) (r : RequestRow), db[i]? = some r →
      (r.id ≠ request_id →
        (update_request db request_id s resp t)[i]? = some r) ∧
      (r.id = request_id →
        ∃ r2, (update_request db request_id s resp t)[i]? = some r2 ∧
          r2.summary = some s ∧ r2.response = some resp ∧
          r2.processed_at = some t ∧ r2.id = r.id ∧
          r2.request_body = r.request_body ∧
          r2.created_at = r.created_at) := by
  refine ⟨by simp [update_request], ?_, ?_⟩
  · unfold update_request
    rw [List.map_map]
    apply List.map_congr_left
    intro a _
    by_cases h : a.id = request_id <;> simp [h]
  · intro i r hr
    constructor
    · intro hne
      simp [update_request, List.getElem?_map, hr, hne]
    · intro heq
      refine ⟨{ r with summary := some s
                       response := some resp
                       processed_at := some t },
        ?_, rfl, rfl, rfl, rfl, rfl, rfl⟩
      simp [update_request, List.getElem?_map, hr, heq]

/-- Concrete run of `update_request_frame`: the unprocessed row
holding "What is 2+2?" gets non-null summary, response and
processed_at while keeping its id, request body and creation time. -/
theorem update_request_frame_witness :
    ∃ r2, (update_request
        [⟨1, "What is 2+2?", none, none, none, "2020-01-01"⟩]
        1 "sum" "resp" "2020-01-02")[0]? = some r2 ∧
      r2.summary = some "sum" ∧ r2.response = some "resp" ∧
      r2.processed_at = some "2020-01-02" ∧ r2.id = 1 ∧
      r2.request_body = "What is 2+2?" ∧ r2.created_at = "2020-01-01" :=
  ((update_request_frame
      [⟨1, "What is 2+2?", none, none, none, "2020-01-01"⟩]
      1 "sum" "resp" "2020-01-02").2.2 0
      ⟨1, "What is 2+2?", none, none, none, "2020-01-01"⟩ rfl).2 rfl

/-- Claim C7: `Database.get_application_by_id` returns the
`CreditApplication` built from a stored row carrying the requested id
whenever one exists, and raises `ValueError("Application not found")`
exactly when no stored row carries that id. -/
theorem get_application_by_id_spec (db : List ApplicationRow) (app_id : Int) :
    (∀ c, get_application_by_id db app_id = .ok c →
       ∃ row ∈ db, row.id = app_id ∧ c = rowToCreditApplication row) ∧
    (get_application_by_id db app_id = .error "Application not found" ↔
       ∀ row ∈ db, row.id ≠ app_id) := by
  unfold get_application_by_id
  cases hfind : db.find? (fun r => r.id == app_id) with
  | some row =>
    have hp : row.id = app_id := by
      have := List.find?_some hfind
      simpa using this
    have hmem : row ∈ db := List.mem_of_find?_eq_some hfind
    constructor
    · intro c hc
      exact ⟨row, hmem, hp, by simpa using hc.symm⟩
    · simp only [reduceCtorEq, false_iff]
      intro hall
      exact hall row hmem hp
  | none =>
    have hall := List.find?_eq_none.mp hfind
    constructor
    · intro c hc
      cases hc
    · simp only [true_iff]
      intro row hrow
      simpa using hall row hrow

/-- Concrete run of `get_application_by_id_spec`: a present id is
found and built from its row; on the empty table the lookup fails
with "Application not found". -/
theorem get_application_by_id_spec_witness :
    (∃ row ∈ [(⟨1, "Jane Doe", "1990-01-01", "1 Main St", "123-45-6789",
        100000, 20000, 720⟩ : ApplicationRow)], row.id = 1 ∧
      rowToCreditApplication ⟨1, "Jane Doe", "1990-01-01", "1 Main St",
        "123-45-6789", 100000, 20000, 720⟩ = rowToCreditApplication row) ∧
    get_application_by_id ([] : List ApplicationRow) 1 =
      .error "Application not found" :=
  ⟨(get_application_by_id_spec
      [⟨1, "Jane Doe", "1990-01-01", "1 Main St", "123-45-6789",
        100000, 20000, 720⟩] 1).1
      (rowToCreditApplication ⟨1, "Jane Doe", "1990-01-01", "1 Main St",
        "123-45-6789", 100000, 20000, 720⟩) rfl,
   (get_application_by_id_spec ([] : List ApplicationRow) 1).2.mpr
      (by simp)⟩

/-- Claim C3: the ollama fallback path never propagates an error to
its caller: whatever `extract_json` and pydantic validation do on the
raw output — raise, return a falsy value, or yield a fragment that
fails validation — the handler converts the condition internally and
the call returns `none`. -/
theorem ollama_fallback_never_raises
    (extract_json : String → Except PyError (Option JsonObj))
    (validateAgentResponse : JsonObj → Except PyError AgentResponse)
    (e : PyError) (raw : String)
    (hraw : e.llm_output = some raw)
    (hfail : (∃ m, extract_json raw = .error m) ∨
      extract_json raw = .ok none ∨
      ∃ j, extract_json raw = .ok (some j) ∧
        (j.isEmpty = true ∨ ∃ m, validateAgentResponse j = .error m)) :
    call_ollama_with_pydantic_ai (.error e) extract_json
      validateAgentResponse = none := by
  unfold call_ollama_with_pydantic_ai
  by_cases h1 : (strContains e.message "Connection refused"
      || strContains e.message "Failed to establish a new connection") = true
  · simp [h1]
  · rw [Bool.not_eq_true] at h1
    by_cases h2 : strContains e.message.toLower "model not found" = true
    · simp [h1, h2]
    · rw [Bool.not_eq_true] at h2
      simp only [h1, h2, Bool.false_eq_true, if_false, hraw]
      rcases hfail with ⟨m, hm⟩ | hm | ⟨j, hj, hje | ⟨m, hm⟩⟩
      · rw [hm]
      · rw [hm]
      · rw [hj]
        simp [hje]
      · rw [hj]
        by_cases hje : j.isEmpty = true <;> simp [hje, hm]

/-- Concrete run of `ollama_fallback_never_raises`: an exception
whose raw output makes `extract_json` itself raise still yields
`none`, not a propagated error. -/
theorem ollama_fallback_never_raises_witness :
    call_ollama_with_pydantic_ai (.error ⟨"boom", some "no json here"⟩)
      (fun _ => .error ⟨"parse error", none⟩)
      (fun _ => .ok ⟨"s", "r"⟩) = none :=
  ollama_fallback_never_raises
    (fun _ => .error ⟨"parse error", none⟩)
    (fun _ => .ok ⟨"s", "r"⟩)
    ⟨"boom", some "no json here"⟩ "no json here" rfl
    (.inl ⟨⟨"parse error", none⟩, rfl⟩)

/-- Claim C4: in the openai call path, a generation failure carrying
raw output triggers exactly one fallback-extraction attempt; a
failure without raw output triggers none; and a non-`none` result
arises only when the primary call validated, or the single fallback
attempt extracted a fragment that passed validation — never from a
fabricated default. -/
theorem openai_fallback_exactly_once
    (apiKeySet : Bool)
    (runChain : Except PyError AgentResponse)
    (extract_json : String → Except PyError (Option JsonObj))
    (validateAgentResponse : JsonObj → Except PyError AgentResponse) :
    (∀ v, (call_openai_with_pydantic_ai apiKeySet runChain extract_json
        validateAgentResponse).1 = some v →
      runChain = .ok v ∨
      ∃ e raw j, runChain = .error e ∧ e.llm_output = some raw ∧
        extract_json raw = .ok (some j) ∧
        validateAgentResponse j = .ok v) ∧
    (∀ e raw, apiKeySet = true → runChain = .error e →
      e.llm_output = some raw →
      (call_openai_with_pydantic_ai apiKeySet runChain extract_json
        validateAgentResponse).2 = 1) ∧
    (∀ e, apiKeySet = true → runChain = .error e → e.llm_output = none →
      (call_openai_with_pydantic_ai apiKeySet runChain extract_json
        validateAgentResponse).1 = none ∧
      (call_openai_with_pydantic_ai apiKeySet runChain extract_json
        validateAgentResponse).2 = 0) := by
  unfold call_openai_with_pydantic_ai
  cases apiKeySet with
  | false =>
    refine ⟨?_, ?_, ?_⟩
    · intro v hv
      simp at hv
    · intro e raw hk
      simp at hk
    · intro e hk
      simp at hk
  | true =>
    cases runChain with
    | ok w =>
      refine ⟨?_, ?_, ?_⟩
      · intro v hv
        simp at hv
        exact .inl (by rw [hv])
      · intro e raw _ he _
        cases he
      · intro e _ he _
        cases he
    | error e0 =>
      refine ⟨?_, ?_, ?_⟩
      · intro v hv
        obtain ⟨msg, out⟩ := e0
        cases out with
        | none => simp at hv
        | some raw0 =>
          cases hex : extract_json raw0 with
          | error m => simp [hex] at hv
          | ok jo =>
            cases jo with
            | none => simp [hex] at hv
            | some j =>
              by_cases hje : j.isEmpty = true
              · simp [hex, hje] at hv
              · cases hval : validateAgentResponse j with
                | ok w =>
                  simp [hex, hje, hval] at hv
                  exact .inr ⟨⟨msg, some raw0⟩, raw0, j, rfl, rfl, hex,
                    by rw [hval, hv]⟩
                | error m => simp [hex, hje, hval] at hv
      · intro e raw _ he hraw
        injection he with h
        subst h
        simp only [hraw]
        cases hex : extract_json raw with
        | error m => simp [hex]
        | ok jo =>
          cases jo with
          | none => simp [hex]
          | some j =>
            by_cases hje : j.isEmpty = true
            · simp [hex, hje]
            · cases hval : validateAgentResponse j <;>
                simp [hex, hje, hval]
      · intro e _ he hnone
        injection he with h
        subst h
        simp [hnone]

/-- Concrete run of `openai_fallback_exactly_once`: a validation
failure carrying raw output makes exactly one fallback attempt. -/
theorem openai_fallback_exactly_once_witness :
    (call_openai_with_pydantic_ai true
      (.error ⟨"validation failed", some "raw text"⟩)
      (fun _ => .ok none) (fun _ => .ok ⟨"s", "r"⟩)).2 = 1 :=
  (openai_fallback_exactly_once true
    (.error ⟨"validation failed", some "raw text"⟩)
    (fun _ => .ok none) (fun _ => .ok ⟨"s", "r"⟩)).2.1
    ⟨"validation failed", some "raw text"⟩ "raw text" rfl rfl rfl

/-- Claim C8: `check_background` hands its evaluator only the
applicant's full name (so its verdict is invariant under every other
field), while `validate_data` and `evaluate_financials` each hand
their evaluator the full serialized `CreditApplication`; and for two
applications whose serializations differ, some evaluator behaviour
distinguishes them through `validate_data` — the full record, not
just the name, reaches that tool.  Every tool returns the bare
boolean verdict of its evaluator. -/
theorem tool_payloads_spec (oracle : String → Bool) (ctx ctx2 : AppContext)
    (hname : ctx.credit_application.full_name =
      ctx2.credit_application.full_name) :
    check_background oracle ctx = oracle ctx.credit_application.full_name ∧
    validate_data oracle ctx =
      oracle (model_dump_json ctx.credit_application) ∧
    evaluate_financials oracle ctx =
      oracle (model_dump_json ctx.credit_application) ∧
    check_background oracle ctx = check_background oracle ctx2 ∧
    (∀ ctx3 ctx4 : AppContext,
      model_dump_json ctx3.credit_application ≠
        model_dump_json ctx4.credit_application →
      ∃ o2 : String → Bool, validate_data o2 ctx3 ≠ validate_data o2 ctx4) := by
  refine ⟨rfl, rfl, rfl, ?_, ?_⟩
  · unfold check_background
    rw [hname]
  · intro ctx3 ctx4 h
    refine ⟨fun s => s == model_dump_json ctx3.credit_application, ?_⟩
    simp [validate_data, h]
    exact fun h2 => h h2.symm

/-- Concrete run of `tool_payloads_spec`: two applications that share
the name "Jane Doe" but differ everywhere else get the same
background-check verdict. -/
theorem tool_payloads_spec_witness :
    check_background (fun s => s == "Jane Doe")
      ⟨⟨1, "Jane Doe", "1990-01-01", "1 Main St", "123", 100000, 20000, 720⟩⟩ =
    check_background (fun s => s == "Jane Doe")
      ⟨⟨2, "Jane Doe", "1985-05-05", "2 Oak Ave", "456", 50, 9000, 400⟩⟩ :=
  (tool_payloads_spec (fun s => s == "Jane Doe")
    ⟨⟨1, "Jane Doe", "1990-01-01", "1 Main St", "123", 100000, 20000, 720⟩⟩
    ⟨⟨2, "Jane Doe", "1985-05-05", "2 Oak Ave", "456", 50, 9000, 400⟩⟩
    rfl).2.2.2.1

/-- Absent id makes the repository lookup raise (helper shared by the
CLI theorems). -/
theorem get_application_by_id_error_of_absent
    (db : List ApplicationRow) (app_id : Int)
    (h : ∀ row ∈ db, row.id ≠ app_id) :
    get_application_by_id db app_id = .error "Application not found" := by
  unfold get_application_by_id
  have hnone : db.find? (fun r => r.id == app_id) = none :=
    List.find?_eq_none.mpr (fun x hx => by simpa using h x hx)
  rw [hnone]

/-- Claim C9 counterexample: the claim demands a non-zero-equivalent
exit status whenever the referenced application is not found, but
`main` catches the `ValueError`, prints the error line and falls off
the end of the function, so the process exits with status 0; at the
concrete input of an empty applications table and id 1 the claimed
non-zero exit is refuted. -/
theorem main_notfound_nonzero_refuted :
    ¬ (∀ (db : List ApplicationRow) (app_id : Int) (d : FeasibilityResult),
        (∀ row ∈ db, row.id ≠ app_id) → (mainRun db app_id d).2 ≠ 0) := by
  intro h
  exact h [] 1 ⟨.Approved, "ok"⟩ (by simp) rfl

/-- Claim C9 (amended): when the referenced application is not found
the CLI prints the error line and exits with status 0 — the normal
exit status, failure being signalled only through the printed
message; on success it prints the evaluation line and the decision
panel and also exits with status 0. -/
theorem mainRun_exit_behavior (db : List ApplicationRow) (app_id : Int)
    (d : FeasibilityResult) :
    ((∀ row ∈ db, row.id ≠ app_id) →
      (mainRun db app_id d).1 =
        ["[bold red]Error:[/] Application not found"] ∧
      (mainRun db app_id d).2 = 0) ∧
    (∀ c, get_application_by_id db app_id = .ok c →
      (mainRun db app_id d).1 =
        ["Evaluating application for: [bold cyan]" ++ c.full_name ++ "[/]",
         decisionPanel d] ∧
      (mainRun db app_id d).2 = 0) := by
  constructor
  · intro h
    have he := get_application_by_id_error_of_absent db app_id h
    unfold mainRun
    rw [he]
    exact ⟨rfl, rfl⟩
  · intro c hc
    unfold mainRun
    rw [hc]
    exact ⟨rfl, rfl⟩

/-- Concrete run of `mainRun_exit_behavior`: the empty table yields
the printed error line with exit status 0, and a present application
yields the panel with exit status 0. -/
theorem mainRun_exit_behavior_witness :
    ((mainRun [] 1 ⟨.Approved, "ok"⟩).1 =
        ["[bold red]Error:[/] Application not found"] ∧
      (mainRun [] 1 ⟨.Approved, "ok"⟩).2 = 0) ∧
    ((mainRun [⟨1, "Jane Doe", "1990-01-01", "1 Main St", "123",
          100000, 20000, 720⟩] 1 ⟨.Approved, "all good"⟩).1 =
        ["Evaluating application for: [bold cyan]Jane Doe[/]",
         decisionPanel ⟨.Approved, "all good"⟩] ∧
      (mainRun [⟨1, "Jane Doe", "1990-01-01", "1 Main St", "123",
          100000, 20000, 720⟩] 1 ⟨.Approved, "all good"⟩).2 = 0) :=
  ⟨(mainRun_exit_behavior [] 1 ⟨.Approved, "ok"⟩).1 (by simp),
   (mainRun_exit_behavior [⟨1, "Jane Doe", "1990-01-01", "1 Main St",
      "123", 100000, 20000, 720⟩] 1 ⟨.Approved, "all good"⟩).2
      (rowToCreditApplication ⟨1, "Jane Doe", "1990-01-01", "1 Main St",
        "123", 100000, 20000, 720⟩) rfl⟩

/-- Claim C10: invoking the CLI with the explicit application id 0 is
treated exactly like supplying no id at all — `if args.app_id:` tests
Python truthiness and 0 is falsy — so the run uses the random id
drawn from 1..10 and prints the random-selection line. -/
theorem app_id_zero_ignored (randomValue : Int)
    (_h1 : 1 ≤ randomValue) (_h2 : randomValue ≤ 10) :
    select_application_id (some 0) randomValue =
      select_application_id none randomValue ∧
    (select_application_id (some 0) randomValue).1 = randomValue ∧
    (select_application_id (some 0) randomValue).2 =
      "Randomly selected application ID: " ++ toString randomValue :=
  ⟨rfl, rfl, rfl⟩

/-- Concrete run of `app_id_zero_ignored` at the in-range random
draw 7. -/
theorem app_id_zero_ignored_witness :
    select_application_id (some 0) 7 = select_application_id none 7 ∧
    (select_application_id (some 0) 7).1 = 7 ∧
    (select_application_id (some 0) 7).2 =
      "Randomly selected application ID: " ++ toString (7 : Int) :=
  app_id_zero_ignored 7 (by decide) (by decide)

/-- If the tool loop finishes with a decision, every declared tool
was in the invocation record at the moment of the transition to
Deciding (helper for the exhaustiveness theorem). -/
theorem coordRun_finished_all_invoked (choices : Nat → CoordChoice) :
    ∀ (remaining iter : Nat) (invoked : List ToolName)
      (d : FeasibilityResult) (inv : List ToolName),
      coordRun choices remaining iter invoked = .finished d inv →
      allToolsInvoked inv = true := by
  intro remaining
  induction remaining with
  | zero =>
    intro iter invoked d inv h
    simp [coordRun] at h
  | succ n ih =>
    intro iter invoked d inv h
    unfold coordRun at h
    cases hch : choices iter with
    | genFail =>
      rw [hch] at h
      exact CoordOutcome.noConfusion h
    | callTools ts =>
      rw [hch] at h
      exact ih (iter + 1) (invoked ++ ts) d inv h
    | finalize r =>
      simp only [hch] at h
      by_cases hall : allToolsInvoked invoked = true
      · rw [if_pos hall] at h
        injection h with h1 h2
        subst h2
        exact hall
      · rw [if_neg hall] at h
        exact ih (iter + 1) invoked d inv h

/-- Claim C1: a run that reaches Finished with a Decision invoked
each of the three declared tools (`validate_data`,
`evaluate_financials`, `check_background`) at least once beforehand;
the only exits that skip a tool are terminal failures. -/
theorem coordinator_decision_after_all_tools
    (choices : Nat → CoordChoice) (ceiling : Nat)
    (d : FeasibilityResult) (inv : List ToolName)
    (h : evaluateApplication choices ceiling = .finished d inv) :
    inv.contains .validate_data = true ∧
    inv.contains .evaluate_financials = true ∧
    inv.contains .check_background = true := by
  have hall := coordRun_finished_all_invoked choices ceiling 0 [] d inv h
  simpa [allToolsInvoked, declaredTools] using hall

/-- Concrete run of `coordinator_decision_after_all_tools`: a
capability that calls all three tools first and then finalizes
produces a Finished run whose record holds all three tools. -/
theorem coordinator_decision_after_all_tools_witness :
    [ToolName.validate_data, ToolName.evaluate_financials,
      ToolName.check_background].contains ToolName.validate_data = true ∧
    [ToolName.validate_data, ToolName.evaluate_financials,
      ToolName.check_background].contains ToolName.evaluate_financials = true ∧
    [ToolName.validate_data, ToolName.evaluate_financials,
      ToolName.check_background].contains ToolName.check_background = true :=
  coordinator_decision_after_all_tools
    (fun n => if n = 0 then .callTools declaredTools
      else .finalize ⟨.Approved, "ok"⟩) 3
    ⟨.Approved, "ok"⟩ declaredTools rfl

/-- If the run exhausts the iteration ceiling without ever reaching
Deciding, the loop ends in Failed (helper for the ceiling theorem). -/
theorem coordRun_failed_of_ceiling_exhausted (choices : Nat → CoordChoice) :
    ∀ (remaining iter : Nat) (invoked : List ToolName),
      coordCeilingExhausted choices remaining iter invoked = true →
      coordRun choices remaining iter invoked = .failed := by
  intro remaining
  induction remaining with
  | zero =>
    intro iter invoked _
    rfl
  | succ n ih =>
    intro iter invoked h
    unfold coordCeilingExhausted at h
    unfold coordRun
    cases hch : choices iter with
    | genFail =>
      simp only [hch] at h
      exact Bool.noConfusion h
    | callTools ts =>
      simp only [hch] at h
      simp only [hch]
      exact ih (iter + 1) (invoked ++ ts) h
    | finalize r =>
      simp only [hch] at h
      simp only [hch]
      by_cases hall : allToolsInvoked invoked = true
      · rw [if_pos hall] at h
        exact Bool.noConfusion h
      · rw [if_neg hall] at h
        rw [if_neg hall]
        exact ih (iter + 1) invoked h

/-- Claim C2: a run whose iteration ceiling is exhausted before the
Deciding state is reached terminates in Failed — the outcome carries
no Decision, so no partial Decision reaches the caller. -/
theorem coordinator_ceiling_exhausted_fails
    (choices : Nat → CoordChoice) (ceiling : Nat)
    (h : coordCeilingExhausted choices ceiling 0 [] = true) :
    evaluateApplication choices ceiling = .failed :=
  coordRun_failed_of_ceiling_exhausted choices ceiling 0 [] h

/-- Concrete run of `coordinator_ceiling_exhausted_fails`: a
capability that keeps calling no tools exhausts a ceiling of 2 and
the run fails with no decision. -/
theorem coordinator_ceiling_exhausted_fails_witness :
    evaluateApplication (fun _ => .callTools []) 2 = .failed :=
  coordinator_ceiling_exhausted_fails (fun _ => .callTools []) 2 rfl

end Pycon2025
